import Mathlib

/-!
Verification development for the claude_fantasy repository: a shallow
embedding in Lean 4 of the conversation-store, context-formatter,
agent-routing and orchestrator logic of `backend/app.py` and
`backend/chat_orchestrator.py`, together with theorems settling the
frozen specification claims.

The two external HTTP backends are abstracted as injected functions
returning `Except String String` (error text or reply text), matching the
spec's treatment of the transport as an opaque request/response function.
Python's global mutable `conversations` dict is modelled as a value of
type `Store` threaded explicitly through each handler, and each handler
returns its result together with the store it leaves behind, so mutation
(and its absence) is visible in the types.
-/

namespace ClaudeFantasy

/-- A message record as stored by `app.py`'s `conversations` dict: the
`chat` endpoint appends dicts with keys `role`, `content`, `speaker`.
`speaker` is `Option` because `prepare_messages_for_api` reads it with
`msg.get("speaker", "unknown")`, i.e. it tolerates records lacking the
key, while `role` and `content` are accessed unconditionally. -/
structure AppRecord where
  role : String
  content : String
  speaker : Option String
  deriving Repr, DecidableEq

/-- One entry of the role/content sequence sent to a backend API. -/
structure ApiMessage where
  role : String
  content : String
  deriving Repr, DecidableEq

/-- Model of Python's `str.upper()` as used by both formatters on speaker
tags: uppercase every character. Defined over the character list so it is
kernel-computable (the library's `String.toUpper` is extensionally the
same map but does not reduce). -/
def upper (s : String) : String := String.mk (s.data.map Char.toUpper)

/-- The in-memory conversation store: Python's `conversations` dict,
mapping a conversation id to its ordered history. `none` means the key
is absent from the dict (distinct from an empty history being present).
The store is generic in the record type because the dict/list operations
of the source never inspect the records they hold. -/
def Store (α : Type) : Type := String → Option (List α)

namespace Store

/-- Embedding of `app.py` lines 72-80: `if conv_id not in conversations:
conversations[conv_id] = []` followed by
`conversations[conv_id].append(record)`. -/
def append (st : Store α) (cid : String) (r : α) : Store α :=
  fun k => if k = cid then some ((st cid).getD [] ++ [r]) else st k

/-- A sequence of appends to one conversation id, in order. -/
def appendAll (st : Store α) (cid : String) (rs : List α) : Store α :=
  rs.foldl (fun s r => Store.append s cid r) st

end Store

/-- The store with no conversations: the module-initial `conversations = {}`. -/
def emptyStore {α : Type} : Store α := fun _ => none

namespace App

/-- Request body of POST `/api/chat` (`ChatMessage` pydantic model). -/
structure ChatMessage where
  message : String
  ai : String
  conversation_id : String
  deriving Repr, DecidableEq

/-- Response body of POST `/api/chat` (`ChatResponse` pydantic model). -/
structure ChatResponse where
  response : String
  speaker : String
  conversation_id : String
  deriving Repr, DecidableEq

/-- Response body of GET `/api/conversation/{conv_id}`. -/
structure ConversationResponse where
  messages : List AppRecord
  deriving Repr, DecidableEq

/-- Response body of DELETE `/api/conversation/{conv_id}`. -/
structure ClearResponse where
  status : String
  conversation_id : String
  deriving Repr, DecidableEq

/-- The loop body of `app.py`'s `prepare_messages_for_api`: read the
speaker with default `"unknown"`, prefix the content with
`"[" + speaker.upper() + "]: "` unless the speaker is `"human"` or
`"user"`, and emit `{role, content}`. -/
def format_record (msg : AppRecord) : ApiMessage :=
  let speaker := msg.speaker.getD "unknown"
  let content :=
    if speaker ∈ (["human", "user"] : List String) then msg.content
    else "[" ++ upper speaker ++ "]: " ++ msg.content
  { role := msg.role, content := content }

/-- The loop of `prepare_messages_for_api` over a history list. -/
def format_records (conversation : List AppRecord) : List ApiMessage :=
  conversation.map format_record

/-- Embedding of `app.py` `prepare_messages_for_api(conv_id, current_ai)`: look the
history up with `conversations.get(conv_id, [])` and format each record.
The function only reads the store; the returned second component is the
store it leaves behind. `current_ai` is accepted and unused, as in the
source. -/
def prepare_messages_for_api (st : Store AppRecord) (conv_id : String)
    (current_ai : String) : List ApiMessage × Store AppRecord :=
  (format_records ((st conv_id).getD []), st)

/-- System prompt hard-coded in `app.py`'s `get_claude_response`. -/
def claude_system_prompt : String :=
  "You are Claude, participating in a three-way conversation with a human " ++
  "and another AI called DeepSeek. The human moderates the conversation and " ++
  "chooses who speaks. Be natural, engaged, and aware of the multi-party context. " ++
  "Reference previous messages from all participants when relevant."

/-- System prompt hard-coded in `app.py`'s `get_deepseek_response`. -/
def deepseek_system_prompt : String :=
  "You are DeepSeek, participating in a three-way conversation with a human " ++
  "and Claude (Anthropic AI). The human moderates and chooses who speaks. " ++
  "Bring your analytical and technical perspective. Reference the full conversation context."

/-- Embedding of `app.py` `get_claude_response(conv_id)`: format the history, call the
Anthropic backend (abstracted as `backend`, taking the formatted messages
and the system prompt), and on any exception return the textual failure
payload `"Error: Unable to get response from Claude. " + str(e)` instead
of raising. -/
def get_claude_response (st : Store AppRecord) (conv_id : String)
    (backend : List ApiMessage → String → Except String String) : String :=
  let messages := (prepare_messages_for_api st conv_id "claude").1
  match backend messages claude_system_prompt with
  | .ok text => text
  | .error e => "Error: Unable to get response from Claude. " ++ e

/-- Embedding of `app.py` `get_deepseek_response(conv_id)`: format the history, inject
the system prompt as the first message of the array (OpenAI-compatible
convention), call the DeepSeek backend, and on any exception return the
textual failure payload instead of raising. -/
def get_deepseek_response (st : Store AppRecord) (conv_id : String)
    (backend : List ApiMessage → Except String String) : String :=
  let messages := (prepare_messages_for_api st conv_id "deepseek").1
  let messages_with_system :=
    { role := "system", content := deepseek_system_prompt } :: messages
  match backend messages_with_system with
  | .ok text => text
  | .error e => "Error: Unable to get response from DeepSeek. " ++ e

/-- Embedding of `app.py` `chat(message)` (POST `/api/chat`): create the conversation
if absent and append the human record; then route on `message.ai` —
`"claude"` and `"deepseek"` call the respective backend and append the
reply (or failure payload) as an assistant record tagged with
`message.ai`, any other value raises `HTTPException(400)` (modelled as
`.error 400`) after the human record has already been appended. -/
def chat (st : Store AppRecord) (m : ChatMessage)
    (claudeBackend : List ApiMessage → String → Except String String)
    (deepseekBackend : List ApiMessage → Except String String) :
    Except Nat ChatResponse × Store AppRecord :=
  let conv_id := m.conversation_id
  let st1 := Store.append st conv_id
    { role := "user", content := m.message, speaker := some "human" }
  if m.ai = "claude" then
    let response_text := get_claude_response st1 conv_id claudeBackend
    let st2 := Store.append st1 conv_id
      { role := "assistant", content := response_text, speaker := some m.ai }
    (.ok { response := response_text, speaker := "Claude", conversation_id := conv_id }, st2)
  else if m.ai = "deepseek" then
    let response_text := get_deepseek_response st1 conv_id deepseekBackend
    let st2 := Store.append st1 conv_id
      { role := "assistant", content := response_text, speaker := some m.ai }
    (.ok { response := response_text, speaker := "DeepSeek", conversation_id := conv_id }, st2)
  else
    (.error 400, st1)

/-- Embedding of `app.py` `get_conversation(conv_id)` (GET): if the id is absent return
`{"messages": []}`, otherwise return the stored history; the store is
never modified (no entry is created for an unknown id). -/
def get_conversation (st : Store AppRecord) (conv_id : String) :
    ConversationResponse × Store AppRecord :=
  match st conv_id with
  | none => ({ messages := [] }, st)
  | some history => ({ messages := history }, st)

/-- Embedding of `app.py` `clear_conversation(conv_id)` (DELETE): delete the entry if
present (`if conv_id in conversations: del conversations[conv_id]`), and
return `{"status": "cleared", ...}` unconditionally. -/
def clear_conversation (st : Store AppRecord) (conv_id : String) :
    ClearResponse × Store AppRecord :=
  match st conv_id with
  | none => ({ status := "cleared", conversation_id := conv_id }, st)
  | some _ =>
      ({ status := "cleared", conversation_id := conv_id },
       fun k => if k = conv_id then none else st k)

end App

/-- A `Message` of `chat_orchestrator.py`: one turn with the four fields
of the Message Record. After construction the timestamp is always a
concrete string (the constructor substitutes the current time for a
missing one). -/
structure Message where
  role : String
  content : String
  speaker : String
  timestamp : String
  deriving Repr, DecidableEq

/-- The `Message.__init__` constructor: `self.timestamp = timestamp or
datetime.now().isoformat()`. A `None` timestamp — and, because Python's
`or` tests falsiness, also an empty-string timestamp — is replaced by the
current time, which is passed in explicitly as `now`. -/
def mkMessage (role content speaker : String) (timestamp : Option String)
    (now : String) : Message :=
  { role := role, content := content, speaker := speaker,
    timestamp :=
      match timestamp with
      | none => now
      | some t => if t = "" then now else t }

/-- The JSON shape of one message inside a saved snapshot. Every field is
`Option` so that structurally invalid records (a missing key) are
representable; `load_conversation` accesses each key unconditionally and
a missing one raises `KeyError`. -/
structure MsgJson where
  role : Option String
  content : Option String
  speaker : Option String
  timestamp : Option String
  deriving Repr, DecidableEq

/-- Embedding of `Message.to_dict`: emit all four fields. -/
def Message.to_dict (m : Message) : MsgJson :=
  { role := some m.role, content := some m.content,
    speaker := some m.speaker, timestamp := some m.timestamp }

/-- The JSON shape of a snapshot file as written by `save_conversation`
(`conversation_id`, `messages`, `saved_at`); fields are `Option` so that
malformed snapshots handed to `load_conversation` are representable. -/
structure SnapshotData where
  conversation_id : Option String
  messages : Option (List MsgJson)
  saved_at : Option String
  deriving Repr, DecidableEq

namespace ChatOrchestrator

/-- The mutable conversation state of a `ChatOrchestrator` instance:
`self.conversation_id` and `self.conversation_history`. The API clients,
key strings and the unused `max_context_tokens` bound carry no
conversation state and are left out of the embedding. -/
structure State where
  conversation_id : String
  conversation_history : List Message
  deriving Repr, DecidableEq

/-- Embedding of `ChatOrchestrator.add_human_message(content)`: append a
`Message(role="user", content=content, speaker="human")` (timestamp
defaulted to now) and return it. -/
def add_human_message (st : State) (content : String) (now : String) :
    Message × State :=
  let msg := mkMessage "user" content "human" none now
  (msg, { st with conversation_history := st.conversation_history ++ [msg] })

/-- The loop of `ChatOrchestrator._prepare_messages_for_api`: a record
whose speaker is exactly `"human"` keeps its content; every other record
gets the `"[" + speaker.upper() + "]: "` tag. -/
def prepare_messages_for_api (history : List Message) : List ApiMessage :=
  history.map fun msg =>
    if msg.speaker = "human" then { role := msg.role, content := msg.content }
    else { role := msg.role,
           content := "[" ++ upper msg.speaker ++ "]: " ++ msg.content }

/-- Default system prompt of `ChatOrchestrator.get_claude_response`
(same text as the one in `app.py`). -/
def claude_default_prompt : String := App.claude_system_prompt

/-- Embedding of `ChatOrchestrator.get_claude_response(system_prompt)`: format the
history, resolve the default prompt, call the Anthropic backend
(abstracted as `backend`). On success the reply `Message` is appended to
`self.conversation_history` and returned; on any exception a `Message`
carrying `"Error getting Claude response: " + str(e)` is returned
WITHOUT being appended (the `except` branch has no
`self.conversation_history.append`). -/
def get_claude_response (st : State) (system_prompt : Option String)
    (backend : List ApiMessage → String → Except String String)
    (now : String) : Message × State :=
  let messages := prepare_messages_for_api st.conversation_history
  let sp := system_prompt.getD claude_default_prompt
  match backend messages sp with
  | .ok content =>
      let msg := mkMessage "assistant" content "claude" none now
      (msg, { st with conversation_history := st.conversation_history ++ [msg] })
  | .error e =>
      (mkMessage "assistant" ("Error getting Claude response: " ++ e) "claude" none now,
       st)

/-- Embedding of `ChatOrchestrator.get_deepseek_response(system_prompt)`: a stub that
performs no backend call — it unconditionally builds a `Message` with the
fixed placeholder content, appends it to the history and returns it. The
`system_prompt` argument is resolved but never used. -/
def get_deepseek_response (st : State) (system_prompt : Option String)
    (now : String) : Message × State :=
  let content := "[DeepSeek response - API integration pending]"
  let msg := mkMessage "assistant" content "deepseek" none now
  (msg, { st with conversation_history := st.conversation_history ++ [msg] })

/-- Embedding of `ChatOrchestrator.save_conversation`: serialize the conversation id,
the four-field dict of every message in order, and a save timestamp. -/
def save_conversation (st : State) (now : String) : SnapshotData :=
  { conversation_id := some st.conversation_id,
    messages := some (st.conversation_history.map Message.to_dict),
    saved_at := some now }

/-- One step of `load_conversation`'s list comprehension:
`Message(role=msg['role'], content=msg['content'], speaker=msg['speaker'],
timestamp=msg['timestamp'])`; a missing key raises `KeyError` (keys are
accessed in argument order). -/
def parse_message (m : MsgJson) (now : String) : Except String Message :=
  match m.role with
  | none => .error "KeyError: role"
  | some r =>
    match m.content with
    | none => .error "KeyError: content"
    | some c =>
      match m.speaker with
      | none => .error "KeyError: speaker"
      | some s =>
        match m.timestamp with
        | none => .error "KeyError: timestamp"
        | some t => .ok (mkMessage r c s (some t) now)

/-- The whole list comprehension of `load_conversation`: evaluated in
order, failing at the first malformed record; the result list exists only
if every record parses. -/
def parse_messages : List MsgJson → String → Except String (List Message)
  | [], _ => .ok []
  | m :: rest, now =>
    match parse_message m now with
    | .error e => .error e
    | .ok msg =>
      match parse_messages rest now with
      | .error e => .error e
      | .ok msgs => .ok (msg :: msgs)

/-- Embedding of `ChatOrchestrator.load_conversation(filepath)`, after `json.load`:
`self.conversation_id = data['conversation_id']` executes first (a
missing key fails here with the state untouched), then
`self.conversation_history = [Message(...) for msg in data['messages']]`
— the comprehension is fully evaluated before the assignment, so a
malformed `messages` value fails with the OLD history still in place but
(crucially) the NEW conversation id already assigned. The pair returned
is (operation result, state the object is left in). -/
def load_conversation (st : State) (data : SnapshotData) (now : String) :
    Except String Unit × State :=
  match data.conversation_id with
  | none => (.error "KeyError: conversation_id", st)
  | some cid =>
    let st1 : State := { st with conversation_id := cid }
    match data.messages with
    | none => (.error "KeyError: messages", st1)
    | some msgs =>
      match parse_messages msgs now with
      | .error e => (.error e, st1)
      | .ok history => (.ok (), { st1 with conversation_history := history })

end ChatOrchestrator

/-- Reading a conversation with Python's `conversations.get(conv_id, [])`
(the defaulted dict read used by both the read endpoint and the
formatter). -/
def Store.get (st : Store α) (cid : String) : List α :=
  (st cid).getD []

theorem Store.get_append_self (st : Store α) (cid : String) (r : α) :
    Store.get (Store.append st cid r) cid = Store.get st cid ++ [r] := by
  simp [Store.get, Store.append]

theorem Store.get_appendAll_self (st : Store α) (cid : String) (rs : List α) :
    Store.get (Store.appendAll st cid rs) cid = Store.get st cid ++ rs := by
  induction rs generalizing st with
  | nil => simp [Store.appendAll]
  | cons r rest ih =>
      calc Store.get (Store.appendAll st cid (r :: rest)) cid
          = Store.get (Store.appendAll (Store.append st cid r) cid rest) cid := rfl
        _ = Store.get (Store.append st cid r) cid ++ rest := ih _
        _ = Store.get st cid ++ r :: rest := by
            rw [Store.get_append_self]; simp

theorem Store.appendAll_congr_self (sta stb : Store α) (cid : String) (rs : List α)
    (h : sta cid = stb cid) :
    Store.appendAll sta cid rs cid = Store.appendAll stb cid rs cid := by
  induction rs generalizing sta stb with
  | nil => simpa [Store.appendAll] using h
  | cons r rest ih =>
      exact ih (Store.append sta cid r) (Store.append stb cid r)
        (by simp [Store.append, h])

theorem App.clear_conversation_at_self (st : Store AppRecord) (cid : String) :
    (App.clear_conversation st cid).2 cid = none := by
  rcases h : st cid with _ | l <;> simp [App.clear_conversation, h]

theorem App.clear_conversation_absent (st : Store AppRecord) (cid : String)
    (h : st cid = none) : (App.clear_conversation st cid).2 = st := by
  simp [App.clear_conversation, h]

/-- C3: appending any sequence of records to a fresh (absent) conversation
id and then reading that conversation returns exactly the appended
records, in append order, each record (hence every one of its four
fields: role, content, speaker, timestamp) returned unmodified; and the
read endpoint `get_conversation` returns exactly the stored history. -/
theorem append_get_roundtrip_c3 (st : Store Message) (stA : Store AppRecord)
    (cid : String) (recs : List Message) (h : st cid = none) :
    Store.get (Store.appendAll st cid recs) cid = recs
    ∧ (App.get_conversation stA cid).1.messages = Store.get stA cid := by
  constructor
  · rw [Store.get_appendAll_self]
    simp [Store.get, h]
  · rcases hA : stA cid with _ | l <;> simp [App.get_conversation, Store.get, hA]

/-- Witness for C3 at a concrete fresh store and a concrete two-record
append sequence. -/
theorem append_get_roundtrip_c3_witness :
    (emptyStore (α := Message)) "c1" = none
    ∧ Store.get
        (Store.appendAll (emptyStore (α := Message)) "c1"
          [{ role := "user", content := "hi", speaker := "human", timestamp := "t1" },
           { role := "assistant", content := "yo", speaker := "claude", timestamp := "t2" }])
        "c1"
      = [{ role := "user", content := "hi", speaker := "human", timestamp := "t1" },
         { role := "assistant", content := "yo", speaker := "claude", timestamp := "t2" }] :=
  ⟨rfl,
   (append_get_roundtrip_c3 emptyStore emptyStore "c1"
      [{ role := "user", content := "hi", speaker := "human", timestamp := "t1" },
       { role := "assistant", content := "yo", speaker := "claude", timestamp := "t2" }]
      rfl).1⟩

/-- C7: reading an unknown conversation id returns the empty history (a
normal result, not an error) and leaves the store exactly as it was — no
entry is created for the unknown id (the second conjunct holds for every
store, known id or not). -/
theorem unknown_conversation_read_c7 (st : Store AppRecord) (cid : String) :
    (App.get_conversation st cid).2 = st
    ∧ (st cid = none → (App.get_conversation st cid).1 = { messages := [] }) := by
  rcases h : st cid with _ | l <;> simp [App.get_conversation, h]

/-- Witness for C7 on the empty store at id `"c1"`. -/
theorem unknown_conversation_read_c7_witness :
    (App.get_conversation (emptyStore (α := AppRecord)) "c1").2 = emptyStore
    ∧ (App.get_conversation (emptyStore (α := AppRecord)) "c1").1
        = { messages := [] } :=
  ⟨(unknown_conversation_read_c7 emptyStore "c1").1,
   (unknown_conversation_read_c7 emptyStore "c1").2 rfl⟩

/-- C8: `clear_conversation` always reports success, is idempotent,
removes the entry entirely, is a no-op on an absent id, and leaves no
residual state: any sequence of appends on the id after a delete yields
the same entry for that id as the same appends on a store that never saw
the id. -/
theorem clear_conversation_c8 (st st2 : Store AppRecord) (cid : String)
    (recs : List AppRecord) :
    (App.clear_conversation st cid).1 = { status := "cleared", conversation_id := cid }
    ∧ (App.clear_conversation (App.clear_conversation st cid).2 cid).2
        = (App.clear_conversation st cid).2
    ∧ (App.clear_conversation st cid).2 cid = none
    ∧ (st cid = none → (App.clear_conversation st cid).2 = st)
    ∧ (st2 cid = none →
        Store.appendAll (App.clear_conversation st cid).2 cid recs cid
          = Store.appendAll st2 cid recs cid) := by
  refine ⟨?_, ?_, App.clear_conversation_at_self st cid, ?_, ?_⟩
  · rcases h : st cid with _ | l <;> simp [App.clear_conversation, h]
  · exact App.clear_conversation_absent _ cid (App.clear_conversation_at_self st cid)
  · exact fun h => App.clear_conversation_absent st cid h
  · intro h2
    exact Store.appendAll_congr_self _ _ cid recs
      ((App.clear_conversation_at_self st cid).trans h2.symm)

/-- Witness for C8 at a concrete store holding one conversation. -/
theorem clear_conversation_c8_witness :
    (App.clear_conversation (emptyStore (α := AppRecord)) "c1").1
        = { status := "cleared", conversation_id := "c1" }
    ∧ ((App.clear_conversation (emptyStore (α := AppRecord)) "c1").2 = emptyStore)
    ∧ Store.appendAll (App.clear_conversation (emptyStore (α := AppRecord)) "c1").2 "c1"
        [{ role := "user", content := "hi", speaker := some "human" }] "c1"
      = Store.appendAll (emptyStore (α := AppRecord)) "c1"
          [{ role := "user", content := "hi", speaker := some "human" }] "c1" :=
  ⟨(clear_conversation_c8 emptyStore emptyStore "c1" []).1,
   (clear_conversation_c8 emptyStore emptyStore "c1" []).2.2.2.1 rfl,
   (clear_conversation_c8 emptyStore emptyStore "c1"
      [{ role := "user", content := "hi", speaker := some "human" }]).2.2.2.2 rfl⟩

/-- C9: the orchestrator's DeepSeek turn is a stub: for every state,
every system-prompt argument and every clock value it returns a Message
with role `"assistant"`, speaker `"deepseek"` and the fixed placeholder
content, appends exactly that Message to the history, and touches
nothing else — the reply content is a constant independent of all
inputs. -/
theorem deepseek_stub_constant_c9 (st : ChatOrchestrator.State)
    (system_prompt : Option String) (now : String) :
    (ChatOrchestrator.get_deepseek_response st system_prompt now).1.role = "assistant"
    ∧ (ChatOrchestrator.get_deepseek_response st system_prompt now).1.speaker = "deepseek"
    ∧ (ChatOrchestrator.get_deepseek_response st system_prompt now).1.content
        = "[DeepSeek response - API integration pending]"
    ∧ (ChatOrchestrator.get_deepseek_response st system_prompt now).2.conversation_history
        = st.conversation_history
          ++ [(ChatOrchestrator.get_deepseek_response st system_prompt now).1]
    ∧ (ChatOrchestrator.get_deepseek_response st system_prompt now).2.conversation_id
        = st.conversation_id :=
  ⟨rfl, rfl, rfl, rfl, rfl⟩

/-- C10: in the server formatter, a record with speaker `"user"` is
emitted with its content unchanged exactly like a `"human"` record, a
record with no speaker field is emitted with `"[UNKNOWN]: "` prepended,
both in place within an arbitrary surrounding history (one output per
record, never a failure), and `prepare_messages_for_api` hands the store
back unmodified. -/
theorem formatter_defaults_c10 (role c : String) (conv1 conv2 : List AppRecord)
    (st : Store AppRecord) (cid ai : String) :
    App.format_records
        (conv1 ++ [{ role := role, content := c, speaker := some "user" }] ++ conv2)
      = App.format_records conv1 ++ [{ role := role, content := c }]
          ++ App.format_records conv2
    ∧ App.format_records
        (conv1 ++ [{ role := role, content := c, speaker := none }] ++ conv2)
      = App.format_records conv1 ++ [{ role := role, content := "[UNKNOWN]: " ++ c }]
          ++ App.format_records conv2
    ∧ (App.prepare_messages_for_api st cid ai).2 = st := by
  refine ⟨?_, ?_, rfl⟩ <;>
    simp [App.format_records, App.format_record] <;> rfl

/-- C4 counterexample: the claim says every record with a non-human
speaker is emitted with the `"[" + uppercased(speaker) + "]: "` tag, and
it cites the server formatter; but `app.py`'s formatter also leaves
speaker `"user"` (≠ `"human"`) untagged, so the emitted content is the
original `"hi"`, not `"[USER]: hi"`. -/
theorem formatter_tagging_c4_cex :
    App.format_records [{ role := "user", content := "hi", speaker := some "user" }]
      = [{ role := "user", content := "hi" }]
    ∧ ({ role := "user", content := "hi" } : ApiMessage)
        ≠ { role := "user", content := "[" ++ upper "user" ++ "]: " ++ "hi" } := by
  refine ⟨?_, ?_⟩ <;> decide

/-- C4 (amended): both formatters emit one output entry per record in
original order (they are homomorphic over concatenation, with the given
singleton behaviour). The orchestrator formatter leaves exactly speaker
`"human"` untagged and tags every other speaker with
`"[" + uppercased(speaker) + "]: "`; the server formatter leaves both
`"human"` and `"user"` untagged and tags every other present speaker. -/
theorem formatter_tagging_c4 (histA histB : List Message) (m1 m2 : Message)
    (convA convB : List AppRecord) (r1 r2 : AppRecord) (s : String) :
    ChatOrchestrator.prepare_messages_for_api (histA ++ histB)
      = ChatOrchestrator.prepare_messages_for_api histA
          ++ ChatOrchestrator.prepare_messages_for_api histB
    ∧ (m1.speaker = "human" →
        ChatOrchestrator.prepare_messages_for_api [m1]
          = [{ role := m1.role, content := m1.content }])
    ∧ (m2.speaker ≠ "human" →
        ChatOrchestrator.prepare_messages_for_api [m2]
          = [{ role := m2.role,
               content := "[" ++ upper m2.speaker ++ "]: " ++ m2.content }])
    ∧ App.format_records (convA ++ convB)
        = App.format_records convA ++ App.format_records convB
    ∧ (r1.speaker = some "human" ∨ r1.speaker = some "user" →
        App.format_records [r1] = [{ role := r1.role, content := r1.content }])
    ∧ (r2.speaker = some s → s ≠ "human" → s ≠ "user" →
        App.format_records [r2]
          = [{ role := r2.role, content := "[" ++ upper s ++ "]: " ++ r2.content }]) := by
  refine ⟨?_, ?_, ?_, ?_, ?_, ?_⟩
  · simp [ChatOrchestrator.prepare_messages_for_api]
  · intro h; simp [ChatOrchestrator.prepare_messages_for_api, h]
  · intro h; simp [ChatOrchestrator.prepare_messages_for_api, h]
  · simp [App.format_records]
  · rintro (h | h) <;> simp [App.format_records, App.format_record, h]
  · intro h hs1 hs2
    simp [App.format_records, App.format_record, h, hs1, hs2]

/-- Witness for C4 at concrete records: a human and a claude turn through
the orchestrator formatter, a `"user"`-speaker and a `"deepseek"`-speaker
record through the server formatter. -/
theorem formatter_tagging_c4_witness :
    ChatOrchestrator.prepare_messages_for_api
        [{ role := "user", content := "hi", speaker := "human", timestamp := "t" }]
      = [{ role := "user", content := "hi" }]
    ∧ ChatOrchestrator.prepare_messages_for_api
        [{ role := "assistant", content := "yo", speaker := "claude", timestamp := "t" }]
      = [{ role := "assistant", content := "[" ++ upper "claude" ++ "]: " ++ "yo" }]
    ∧ App.format_records [{ role := "user", content := "hi", speaker := some "user" }]
      = [{ role := "user", content := "hi" }]
    ∧ App.format_records
        [{ role := "assistant", content := "yo", speaker := some "deepseek" }]
      = [{ role := "assistant", content := "[" ++ upper "deepseek" ++ "]: " ++ "yo" }] :=
  ⟨(formatter_tagging_c4 [] []
      { role := "user", content := "hi", speaker := "human", timestamp := "t" }
      { role := "assistant", content := "yo", speaker := "claude", timestamp := "t" }
      [] [] { role := "user", content := "hi", speaker := some "user" }
      { role := "assistant", content := "yo", speaker := some "deepseek" }
      "deepseek").2.1 rfl,
   (formatter_tagging_c4 [] []
      { role := "user", content := "hi", speaker := "human", timestamp := "t" }
      { role := "assistant", content := "yo", speaker := "claude", timestamp := "t" }
      [] [] { role := "user", content := "hi", speaker := some "user" }
      { role := "assistant", content := "yo", speaker := some "deepseek" }
      "deepseek").2.2.1 (by decide),
   (formatter_tagging_c4 [] []
      { role := "user", content := "hi", speaker := "human", timestamp := "t" }
      { role := "assistant", content := "yo", speaker := "claude", timestamp := "t" }
      [] [] { role := "user", content := "hi", speaker := some "user" }
      { role := "assistant", content := "yo", speaker := some "deepseek" }
      "deepseek").2.2.2.2.1 (Or.inr rfl),
   (formatter_tagging_c4 [] []
      { role := "user", content := "hi", speaker := "human", timestamp := "t" }
      { role := "assistant", content := "yo", speaker := "claude", timestamp := "t" }
      [] [] { role := "user", content := "hi", speaker := some "user" }
      { role := "assistant", content := "yo", speaker := some "deepseek" }
      "deepseek").2.2.2.2.2 rfl (by decide) (by decide)⟩

/-- C1 counterexample: the claim says every failing adapter call's
textual payload is appended into history, including for
`ChatOrchestrator.get_claude_response`; but its `except` branch returns
the error-text Message without appending it, so starting from an empty
history the final history is still empty (the claim requires length 1). -/
theorem backend_failure_c1_cex :
    (ChatOrchestrator.get_claude_response
        { conversation_id := "c1", conversation_history := [] } none
        (fun _ _ => Except.error "boom") "t0").2.conversation_history = []
    ∧ (ChatOrchestrator.get_claude_response
        { conversation_id := "c1", conversation_history := [] } none
        (fun _ _ => Except.error "boom") "t0").1.content
      = "Error getting Claude response: boom" := by
  refine ⟨rfl, ?_⟩; rfl

/-- C1 (amended): a failing backend call never propagates an error. In
`app.py`, both agent paths of the chat endpoint return the textual
failure payload as the agent's reply and append it to history as a
normal agent-tagged record. `ChatOrchestrator.get_claude_response`
likewise converts the failure to a textual agent-tagged Message and
returns it instead of raising, but does NOT append it to the
conversation history, which is left unchanged. -/
theorem backend_failure_c1 (st : Store AppRecord) (mc md : App.ChatMessage)
    (e : String) (cb : List ApiMessage → String → Except String String)
    (db : List ApiMessage → Except String String)
    (ost : ChatOrchestrator.State) (sp : Option String) (now : String) :
    (mc.ai = "claude" →
      (App.chat st mc (fun _ _ => Except.error e) db).1
        = Except.ok { response := "Error: Unable to get response from Claude. " ++ e,
                      speaker := "Claude", conversation_id := mc.conversation_id }
      ∧ (App.chat st mc (fun _ _ => Except.error e) db).2 mc.conversation_id
        = some ((st mc.conversation_id).getD []
            ++ [{ role := "user", content := mc.message, speaker := some "human" },
                { role := "assistant",
                  content := "Error: Unable to get response from Claude. " ++ e,
                  speaker := some mc.ai }]))
    ∧ (md.ai = "deepseek" →
      (App.chat st md cb (fun _ => Except.error e)).1
        = Except.ok { response := "Error: Unable to get response from DeepSeek. " ++ e,
                      speaker := "DeepSeek", conversation_id := md.conversation_id }
      ∧ (App.chat st md cb (fun _ => Except.error e)).2 md.conversation_id
        = some ((st md.conversation_id).getD []
            ++ [{ role := "user", content := md.message, speaker := some "human" },
                { role := "assistant",
                  content := "Error: Unable to get response from DeepSeek. " ++ e,
                  speaker := some md.ai }]))
    ∧ ChatOrchestrator.get_claude_response ost sp (fun _ _ => Except.error e) now
        = (mkMessage "assistant" ("Error getting Claude response: " ++ e) "claude"
             none now, ost) := by
  refine ⟨?_, ?_, rfl⟩
  · intro h
    constructor
    · simp [App.chat, h, App.get_claude_response]
    · simp [App.chat, h, App.get_claude_response, Store.append]
  · intro h
    constructor
    · simp [App.chat, h, App.get_deepseek_response]
    · simp [App.chat, h, App.get_deepseek_response, Store.append]

/-- Witness for C1: a failing Claude backend on the empty store, and a
failing backend against an orchestrator with empty history. -/
theorem backend_failure_c1_witness :
    (App.chat (emptyStore (α := AppRecord))
        { message := "hi", ai := "claude", conversation_id := "c1" }
        (fun _ _ => Except.error "boom") (fun _ => Except.ok "x")).1
      = Except.ok { response := "Error: Unable to get response from Claude. " ++ "boom",
                    speaker := "Claude", conversation_id := "c1" }
    ∧ (App.chat (emptyStore (α := AppRecord))
        { message := "yo", ai := "deepseek", conversation_id := "c1" }
        (fun _ _ => Except.ok "x") (fun _ => Except.error "boom")).1
      = Except.ok { response := "Error: Unable to get response from DeepSeek. " ++ "boom",
                    speaker := "DeepSeek", conversation_id := "c1" }
    ∧ ChatOrchestrator.get_claude_response
        { conversation_id := "z", conversation_history := [] } none
        (fun _ _ => Except.error "boom") "t"
      = (mkMessage "assistant" ("Error getting Claude response: " ++ "boom") "claude"
           none "t", { conversation_id := "z", conversation_history := [] }) :=
  ⟨((backend_failure_c1 emptyStore
      { message := "hi", ai := "claude", conversation_id := "c1" }
      { message := "yo", ai := "deepseek", conversation_id := "c1" }
      "boom" (fun _ _ => Except.ok "x") (fun _ => Except.ok "x")
      { conversation_id := "z", conversation_history := [] } none "t").1 rfl).1,
   ((backend_failure_c1 emptyStore
      { message := "hi", ai := "claude", conversation_id := "c1" }
      { message := "yo", ai := "deepseek", conversation_id := "c1" }
      "boom" (fun _ _ => Except.ok "x") (fun _ => Except.ok "x")
      { conversation_id := "z", conversation_history := [] } none "t").2.1 rfl).1,
   (backend_failure_c1 emptyStore
      { message := "hi", ai := "claude", conversation_id := "c1" }
      { message := "yo", ai := "deepseek", conversation_id := "c1" }
      "boom" (fun _ _ => Except.ok "x") (fun _ => Except.ok "x")
      { conversation_id := "z", conversation_history := [] } none "t").2.2⟩

/-- C2 counterexample: requesting agent `"gpt4"` on a fresh store does
fail with the 400 `UnknownAgent` response, but the store is NOT left
unchanged — the chat endpoint has already created the conversation and
appended the human message before routing, so the previously absent id
`"c1"` now holds a one-record history. -/
theorem unknown_agent_c2_cex :
    (App.chat (emptyStore (α := AppRecord))
        { message := "hi", ai := "gpt4", conversation_id := "c1" }
        (fun _ _ => Except.ok "x") (fun _ => Except.ok "y")).1 = Except.error 400
    ∧ (App.chat (emptyStore (α := AppRecord))
        { message := "hi", ai := "gpt4", conversation_id := "c1" }
        (fun _ _ => Except.ok "x") (fun _ => Except.ok "y")).2 "c1"
      = some [{ role := "user", content := "hi", speaker := some "human" }]
    ∧ (emptyStore (α := AppRecord)) "c1" = none := by
  refine ⟨rfl, ?_, rfl⟩; decide

/-- C2 (amended): for every agent name outside the registry the chat
endpoint fails with the 400 `UnknownAgent` error and appends no agent
record, but the human message has already been appended when the error
is raised: the target conversation's entry is the old history plus the
new human record (created if the id was absent), and every other
conversation is untouched. -/
theorem unknown_agent_c2 (st : Store AppRecord) (m : App.ChatMessage)
    (cb : List ApiMessage → String → Except String String)
    (db : List ApiMessage → Except String String)
    (h1 : m.ai ≠ "claude") (h2 : m.ai ≠ "deepseek") :
    (App.chat st m cb db).1 = Except.error 400
    ∧ (App.chat st m cb db).2 m.conversation_id
        = some ((st m.conversation_id).getD []
            ++ [{ role := "user", content := m.message, speaker := some "human" }])
    ∧ ∀ k, k ≠ m.conversation_id → (App.chat st m cb db).2 k = st k := by
  refine ⟨?_, ?_, ?_⟩
  · simp [App.chat, h1, h2]
  · simp [App.chat, h1, h2, Store.append]
  · intro k hk; simp [App.chat, h1, h2, Store.append, hk]

/-- Witness for C2 at agent name `"gpt4"` on a store holding one other
conversation. -/
theorem unknown_agent_c2_witness :
    (App.chat (Store.append (emptyStore (α := AppRecord)) "other"
        { role := "user", content := "prev", speaker := some "human" })
        { message := "hi", ai := "gpt4", conversation_id := "c1" }
        (fun _ _ => Except.ok "x") (fun _ => Except.ok "y")).1 = Except.error 400
    ∧ (App.chat (Store.append (emptyStore (α := AppRecord)) "other"
        { role := "user", content := "prev", speaker := some "human" })
        { message := "hi", ai := "gpt4", conversation_id := "c1" }
        (fun _ _ => Except.ok "x") (fun _ => Except.ok "y")).2 "other"
      = (Store.append (emptyStore (α := AppRecord)) "other"
          { role := "user", content := "prev", speaker := some "human" }) "other" :=
  ⟨(unknown_agent_c2 (Store.append emptyStore "other"
      { role := "user", content := "prev", speaker := some "human" })
      { message := "hi", ai := "gpt4", conversation_id := "c1" }
      (fun _ _ => Except.ok "x") (fun _ => Except.ok "y")
      (by decide) (by decide)).1,
   (unknown_agent_c2 (Store.append emptyStore "other"
      { role := "user", content := "prev", speaker := some "human" })
      { message := "hi", ai := "gpt4", conversation_id := "c1" }
      (fun _ _ => Except.ok "x") (fun _ => Except.ok "y")
      (by decide) (by decide)).2.2 "other" (by decide)⟩

theorem parse_messages_map_to_dict (l : List Message) (now : String)
    (h : ∀ m ∈ l, m.timestamp ≠ "") :
    ChatOrchestrator.parse_messages (l.map Message.to_dict) now = Except.ok l := by
  induction l with
  | nil => rfl
  | cons m rest ih =>
      have hm : m.timestamp ≠ "" := h m (List.mem_cons_self m rest)
      have hr : ∀ x ∈ rest, x.timestamp ≠ "" := fun x hx => h x (List.mem_cons_of_mem m hx)
      simp [ChatOrchestrator.parse_messages, ChatOrchestrator.parse_message,
            Message.to_dict, mkMessage, hm, ih hr]

/-- C5: saving a conversation and loading the snapshot back restores the
conversation id and an identical history — same length, same order, all
four fields of every Message bit-identical — into any orchestrator state.
The hypothesis that no stored timestamp is the empty string holds for
every Message the constructor can build (Python's `timestamp or now`
replaces a falsy timestamp with the non-empty clock string). -/
theorem save_load_roundtrip_c5 (st0 st : ChatOrchestrator.State) (now now2 : String)
    (h : ∀ m ∈ st.conversation_history, m.timestamp ≠ "") :
    ChatOrchestrator.load_conversation st0 (ChatOrchestrator.save_conversation st now) now2
      = (Except.ok (), { conversation_id := st.conversation_id,
                         conversation_history := st.conversation_history }) := by
  simp [ChatOrchestrator.load_conversation, ChatOrchestrator.save_conversation,
        parse_messages_map_to_dict st.conversation_history now2 h]

/-- Witness for C5: a two-record conversation saved at `"ts"` and loaded
over an unrelated state. -/
theorem save_load_roundtrip_c5_witness :
    ChatOrchestrator.load_conversation
        { conversation_id := "z", conversation_history := [] }
        (ChatOrchestrator.save_conversation
          { conversation_id := "c1",
            conversation_history :=
              [{ role := "user", content := "hi", speaker := "human", timestamp := "t1" },
               { role := "assistant", content := "yo", speaker := "claude",
                 timestamp := "t2" }] } "ts") "now2"
      = (Except.ok (),
         { conversation_id := "c1",
           conversation_history :=
             [{ role := "user", content := "hi", speaker := "human", timestamp := "t1" },
              { role := "assistant", content := "yo", speaker := "claude",
                timestamp := "t2" }] }) :=
  save_load_roundtrip_c5 { conversation_id := "z", conversation_history := [] }
    { conversation_id := "c1",
      conversation_history :=
        [{ role := "user", content := "hi", speaker := "human", timestamp := "t1" },
         { role := "assistant", content := "yo", speaker := "claude",
           timestamp := "t2" }] } "ts" "now2" (by decide)

/-- C6 counterexample: loading the structurally invalid snapshot
`{"conversation_id": "x"}` (no `messages` key) over a state with id
`"orig"` fails as the claim requires, but the in-memory conversation id
has already been overwritten with `"x"` — the state is not exactly what
it was before the call. -/
theorem malformed_snapshot_c6_cex :
    (ChatOrchestrator.load_conversation
        { conversation_id := "orig", conversation_history := [] }
        { conversation_id := some "x", messages := none, saved_at := none } "t").1
      = Except.error "KeyError: messages"
    ∧ (ChatOrchestrator.load_conversation
        { conversation_id := "orig", conversation_history := [] }
        { conversation_id := some "x", messages := none, saved_at := none }
        "t").2.conversation_id = "x"
    ∧ ("x" : String) ≠ "orig" := by
  refine ⟨rfl, rfl, ?_⟩; decide

/-- C6 (amended): a structurally invalid snapshot makes the load fail,
and the in-memory history is never partially overwritten — on every
failing load it is exactly the pre-call history. The conversation id is
preserved only when the snapshot's `conversation_id` key itself is
missing; when that key is present but the rest of the snapshot is
malformed, the id has already been overwritten with the snapshot's value
by the time the load fails. -/
theorem malformed_snapshot_c6 (st stB : ChatOrchestrator.State)
    (dataA dataB : SnapshotData) (now : String) :
    (∀ e, (ChatOrchestrator.load_conversation st dataA now).1 = Except.error e →
      (ChatOrchestrator.load_conversation st dataA now).2.conversation_history
        = st.conversation_history)
    ∧ (dataB.conversation_id = none →
      ChatOrchestrator.load_conversation stB dataB now
        = (Except.error "KeyError: conversation_id", stB))
    ∧ (∀ cid, dataA.conversation_id = some cid →
      (ChatOrchestrator.load_conversation st dataA now).2.conversation_id = cid) := by
  refine ⟨?_, ?_, ?_⟩
  · intro e he
    rcases dataA with ⟨cidO, msgsO, savedO⟩
    rcases cidO with _ | cid
    · simp [ChatOrchestrator.load_conversation]
    · rcases msgsO with _ | msgs
      · simp [ChatOrchestrator.load_conversation]
      · rcases hp : ChatOrchestrator.parse_messages msgs now with e2 | hist
        · simp [ChatOrchestrator.load_conversation, hp]
        · simp [ChatOrchestrator.load_conversation, hp] at he
  · intro hB
    rcases dataB with ⟨cidO, msgsO, savedO⟩
    cases hB
    simp [ChatOrchestrator.load_conversation]
  · intro cid hcid
    rcases dataA with ⟨cidO, msgsO, savedO⟩
    cases hcid
    rcases msgsO with _ | msgs
    · simp [ChatOrchestrator.load_conversation]
    · rcases hp : ChatOrchestrator.parse_messages msgs now with e2 | hist <;>
        simp [ChatOrchestrator.load_conversation, hp]

/-- Witness for C6: a snapshot with a valid id and missing `messages`
(first and third conjuncts), and a snapshot missing `conversation_id`
(second conjunct). -/
theorem malformed_snapshot_c6_witness :
    (ChatOrchestrator.load_conversation
        { conversation_id := "orig", conversation_history := [] }
        { conversation_id := some "x", messages := none, saved_at := none }
        "t").2.conversation_history = []
    ∧ ChatOrchestrator.load_conversation
        { conversation_id := "keep", conversation_history := [] }
        { conversation_id := none, messages := some [], saved_at := none } "t"
      = (Except.error "KeyError: conversation_id",
         { conversation_id := "keep", conversation_history := [] })
    ∧ (ChatOrchestrator.load_conversation
        { conversation_id := "orig", conversation_history := [] }
        { conversation_id := some "x", messages := none, saved_at := none }
        "t").2.conversation_id = "x" :=
  ⟨(malformed_snapshot_c6 { conversation_id := "orig", conversation_history := [] }
      { conversation_id := "keep", conversation_history := [] }
      { conversation_id := some "x", messages := none, saved_at := none }
      { conversation_id := none, messages := some [], saved_at := none } "t").1
      "KeyError: messages" rfl,
   (malformed_snapshot_c6 { conversation_id := "orig", conversation_history := [] }
      { conversation_id := "keep", conversation_history := [] }
      { conversation_id := some "x", messages := none, saved_at := none }
      { conversation_id := none, messages := some [], saved_at := none } "t").2.1 rfl,
   (malformed_snapshot_c6 { conversation_id := "orig", conversation_history := [] }
      { conversation_id := "keep", conversation_history := [] }
      { conversation_id := some "x", messages := none, saved_at := none }
      { conversation_id := none, messages := some [], saved_at := none } "t").2.2
      "x" rfl⟩

end ClaudeFantasy
